import Mathlib

/-!
Verification of the loan-insight resolution pipeline.

This file gives a shallow embedding of the query-resolution core of the
loan-insight-assistant repository and proves properties of it:

* `backend/agent_system/golden_kb_handler.py` — curated-answer similarity matcher
* `backend/agent_system/agents/query_agent.py` — intent-classifier fallback
* `backend/agent_system/orchestrator.py` — resolution orchestrator
* `backend/agent_system/schemas.py` — response schemas
* `backend/rag/llm_router.py` — query router, code validator, semantic analysis
* `backend/simple_qa.py` — mathematical/semantic handlers and result formatting

Machine floats are modelled as `Rat`; external collaborators (the completion
service, the retriever, the explanation agent) are modelled as explicit
oracle parameters, so each embedded function is a pure function of its inputs.
-/

namespace LoanInsight

/-! ### Python string primitives -/

/-- Character-wise lowercase, modelling Python `str.lower` on the ASCII range. -/
def lowerL (l : List Char) : List Char := l.map Char.toLower

/-- Character-wise uppercase, modelling Python `str.upper` on the ASCII range. -/
def upperL (l : List Char) : List Char := l.map Char.toUpper

/-- Python whitespace characters stripped by `str.strip()`. -/
def isPyWs (c : Char) : Bool :=
  c == ' ' || c == '\t' || c == '\n' || c == '\r' || c == '\x0b' || c == '\x0c'

/-- Python `str.strip()`: remove leading and trailing whitespace. -/
def stripL (l : List Char) : List Char :=
  ((l.dropWhile isPyWs).reverse.dropWhile isPyWs).reverse

/-- `p` begins `s`. -/
def prefixB : List Char → List Char → Bool
  | [], _ => true
  | _ :: _, [] => false
  | a :: as, b :: bs => a == b && prefixB as bs

/-- Python `p in s` for strings: `p` occurs contiguously in `s`
(the empty string occurs in every string). -/
def substrB (p s : List Char) : Bool :=
  (List.range (s.length + 1)).any (fun i => prefixB p (s.drop i))

/-- Python `p in s` on `String`. -/
def containsB (p s : String) : Bool := substrB p.data s.data

def lowerS (s : String) : String := String.mk (lowerL s.data)

def upperS (s : String) : String := String.mk (upperL s.data)

def stripS (s : String) : String := String.mk (stripL s.data)

/-! ### difflib.SequenceMatcher.ratio

`GoldenKB.similarity_score` calls `SequenceMatcher(None, a, b).ratio()`.
The model below reproduces difflib's Ratcliff-Obershelp computation:
`find_longest_match` (earliest `i`, then earliest `j`, wins ties), the
divide-and-conquer accumulation of matched sizes, and
`ratio = 2*M/T` (`1` when both strings are empty).  difflib's autojunk
heuristic is omitted; it only activates when the second string has at
least 200 characters, which no theorem below depends on. -/

/-- Lookup in the `j2len` association list, defaulting to `0`
(models `j2len.get(j-1, 0)`). -/
def lookupD (l : List (Nat × Nat)) (j : Nat) : Nat :=
  match l.find? (fun p => p.1 == j) with
  | some p => p.2
  | none => 0

/-- One row (fixed `i`, character `c = a[i]`) of `find_longest_match`:
extend runs recorded in the previous row `j2len`, producing the new row and
the updated best block `(besti, bestj, bestsize)`. -/
def fmRow (b : List Char) (blo bhi : Nat) (c : Char) (j2len : List (Nat × Nat))
    (i : Nat) (best : Nat × Nat × Nat) : List (Nat × Nat) × (Nat × Nat × Nat) :=
  ((List.range b.length).filter
      (fun j => decide (blo ≤ j) && decide (j < bhi) && (b.getD j ' ' == c))).foldl
    (fun st j =>
      let k := (if j == 0 then 0 else lookupD j2len (j - 1)) + 1
      let best' := if st.2.2.2 < k then (i + 1 - k, j + 1 - k, k) else st.2
      ((j, k) :: st.1, best'))
    ([], best)

/-- difflib `find_longest_match` restricted to `a[alo:ahi]`, `b[blo:bhi]`,
with no junk: returns `(besti, bestj, bestsize)`.  Callers always pass
`ahi ≤ a.length`, so the `getD` default is never consulted. -/
def findLongestMatch (a b : List Char) (alo ahi blo bhi : Nat) : Nat × Nat × Nat :=
  (((List.range ahi).drop alo).foldl
    (fun st i => fmRow b blo bhi (a.getD i ' ') st.1 i st.2)
    ([], (alo, blo, 0))).2

/-- Total size of all matching blocks (the `M` of `ratio = 2M/T`),
computed by the same divide and conquer as `get_matching_blocks`.
`fuel` dominates the recursion depth; `length + 1` always suffices. -/
def matchedTotal : Nat → List Char → List Char → Nat → Nat → Nat → Nat → Nat
  | 0, _, _, _, _, _, _ => 0
  | fuel + 1, a, b, alo, ahi, blo, bhi =>
    let m := findLongestMatch a b alo ahi blo bhi
    if m.2.2 = 0 then 0
    else
      matchedTotal fuel a b alo m.1 blo m.2.1 + m.2.2 +
        matchedTotal fuel a b (m.1 + m.2.2) ahi (m.2.1 + m.2.2) bhi

/-- `GoldenKB.similarity_score(str1, str2)`:
`SequenceMatcher(None, str1.lower(), str2.lower()).ratio()`. -/
def similarity_score (s1 s2 : String) : Rat :=
  let a := lowerL s1.data
  let b := lowerL s2.data
  let t := a.length + b.length
  if t = 0 then 1
  else mkRat (2 * (matchedTotal (a.length + 1) a b 0 a.length 0 b.length) : Nat) t

/-! ### GoldenKB (backend/agent_system/golden_kb_handler.py)

Entries come from a JSON data file loaded at startup; the matcher below is
parametric in the entry list. -/

/-- One curated entry: `{id, questions, answer}`. -/
structure KBEntry where
  id : String
  questions : List String
  answer : String
deriving DecidableEq

/-- The score `find_best_match` records for one `(query, question)` pair:
the edit-similarity of the lowered-and-stripped query against the lowered
question, boosted to at least `0.8` when either is a substring of the other.
`query_lower` is already `query.lower().strip()`. -/
def boostScore (query_lower : String) (question : String) : Rat :=
  let score := similarity_score query_lower (lowerS question)
  if containsB (lowerS question) query_lower || containsB query_lower (lowerS question) then
    max score (mkRat 4 5)
  else
    score

/-- All `(entry, boosted score)` pairs scanned by the double loop of
`find_best_match`, in scan order. -/
def kbPairs (entries : List KBEntry) (query_lower : String) : List (KBEntry × Rat) :=
  entries.flatMap (fun e => e.questions.map (fun qn => (e, boostScore query_lower qn)))

/-- The loop body `if score > best_score: best_score, best_match := score, entry`. -/
def scanStep (st : Option KBEntry × Rat) (p : KBEntry × Rat) : Option KBEntry × Rat :=
  if st.2 < p.2 then (some p.1, p.2) else st

/-- `GoldenKB.find_best_match(query, threshold)`.  Returns the tracked best
entry together with its score when the best score reaches the threshold,
`none` otherwise.  (In the source, the corner where the threshold is met but
no pair ever scored above `0.0` — reachable only for `threshold ≤ 0` — raises
a `TypeError` on `{**None}`; every theorem below assumes `0 < threshold`,
where the model and the source agree.) -/
def find_best_match (entries : List KBEntry) (query : String) (threshold : Rat) :
    Option (KBEntry × Rat) :=
  let ql := stripS (lowerS query)
  let st := (kbPairs entries ql).foldl scanStep (none, 0)
  if threshold ≤ st.2 then st.1.map (fun e => (e, st.2)) else none

/-- `GoldenKB.get_answer(query)`: the matched entry's answer, with the
default threshold `0.65`. -/
def get_answer (entries : List KBEntry) (query : String) : Option String :=
  (find_best_match entries query (mkRat 13 20)).map (fun m => m.1.answer)

/-- The per-pair score as computed inside `find_best_match` for a raw
query and question variant. -/
def pair_score (query question : String) : Rat :=
  boostScore (stripS (lowerS query)) question

/-- The list of all boosted scores `find_best_match` scans for a query. -/
def kbScores (entries : List KBEntry) (query : String) : List Rat :=
  (kbPairs entries (stripS (lowerS query))).map Prod.snd

/-! ### Schemas (backend/agent_system/schemas.py) -/

/-- `IntentType` — the six intent enum members declared in `schemas.py`.
There is no `GENERAL` member; `orchestrator.py` nevertheless references
`IntentType.GENERAL` on the golden fast path. -/
inductive IntentType where
  | why_rejected
  | why_approved
  | similar_cases
  | risk_analysis
  | audit_reason
  | general_inquiry
deriving DecidableEq

/-- `ComplianceTone` enum. -/
inductive ComplianceTone where
  | audit
  | business
  | neutral
deriving DecidableEq

/-- `QueryIntentSchema`, with the pydantic field defaults. -/
structure QueryIntentSchema where
  intent : IntentType
  loan_id : Option String := none
  filters : List (String × String) := []
  top_k_hint : Nat := 5
  compliance_tone : ComplianceTone := ComplianceTone.neutral
  confidence_score : Rat := 0
deriving DecidableEq

/-- `RetrievedLoanCaseSchema`; metadata values are modelled by their
string renderings. -/
structure RetrievedLoanCaseSchema where
  case_id : Option String := none
  customer_name : Option String := none
  loan_amount : Option Rat := none
  approval_status : Option String := none
  similarity_score : Rat
  original_data : List (String × String) := []
deriving DecidableEq

/-- `FinalResponseSchema` exactly as declared in `schemas.py`.
Note it declares no `source` field. -/
structure FinalResponseSchema where
  query : String
  intent : IntentType
  retrieved_case_count : Nat
  summary : String
  evidence_points : List String := []
  risk_notes : List String := []
  compliance_disclaimer : String
  structured_data : Option (List RetrievedLoanCaseSchema) := none
deriving DecidableEq

/-- The keys of `FinalResponseSchema.model_dump()`: pydantic serialises
exactly the declared fields.  An unexpected keyword argument such as the
`source="golden_kb"` passed in `orchestrator.py` is silently dropped by
pydantic's default extra-field handling and never becomes a field. -/
def finalResponseModelDumpKeys : List String :=
  ["query", "intent", "retrieved_case_count", "summary",
   "evidence_points", "risk_notes", "compliance_disclaimer", "structured_data"]

/-! ### Intent-classifier fallback
(`QueryUnderstandingAgent._fallback_intent`, backend/agent_system/agents/query_agent.py) -/

/-- `_fallback_intent(query)`: deterministic keyword fallback used whenever
the completion service is missing, fails, or returns unparsable output. -/
def fallback_intent (query : String) : QueryIntentSchema :=
  let ql := lowerS query
  let intent :=
    if containsB "reject" ql then IntentType.why_rejected
    else if containsB "approve" ql then IntentType.why_approved
    else if containsB "similar" ql then IntentType.similar_cases
    else if containsB "risk" ql then IntentType.risk_analysis
    else IntentType.general_inquiry
  let tone := if containsB "audit" ql then ComplianceTone.audit else ComplianceTone.neutral
  { intent := intent, compliance_tone := tone, confidence_score := mkRat 1 2 }

/-! ### Query router and code validator (backend/rag/llm_router.py) -/

/-- The `math_keywords` list of `LLMRoutingAgent._keyword_routing`. -/
def keyword_routing_keywords : List String :=
  ["average", "sum", "count", "how many", "percentage",
   "total", "mean", "top", "highest", "lowest", "calculate",
   "what is the", "how much", "percent"]

/-- `LLMRoutingAgent._keyword_routing(query)`: MATHEMATICAL exactly when any
keyword of the single fixed list occurs in the lowercased query. -/
def keyword_routing (query : String) : String :=
  if keyword_routing_keywords.any (fun kw => containsB kw (lowerS query)) then "MATHEMATICAL"
  else "SEMANTIC"

/-- `LLMRoutingAgent.route_query(query)`.  `available` models
`self.available`; `llmResponse` models the value returned by `_call_groq`
(`none` for a transport failure, which `_call_groq` converts to `None`). -/
def route_query (available : Bool) (llmResponse : Option String) (query : String) : String :=
  if !available then keyword_routing query
  else
    match llmResponse with
    | none => keyword_routing query
    | some r =>
      if r = "" then keyword_routing query
      else
        let c := upperS (stripS r)
        if containsB "MATHEMATICAL" c then "MATHEMATICAL"
        else if containsB "SEMANTIC" c then "SEMANTIC"
        else keyword_routing query

namespace KeywordRouter

/-- `KeywordRouter.MATH_KEYWORDS`. -/
def MATH_KEYWORDS : List String :=
  ["average", "mean", "sum", "total", "count", "how many",
   "percentage", "percent", "%", "ratio", "calculate", "what is",
   "top", "highest", "lowest", "maximum", "minimum"]

/-- `KeywordRouter.SEMANTIC_KEYWORDS`. -/
def SEMANTIC_KEYWORDS : List String :=
  ["why", "reason", "pattern", "compare", "analysis", "risk",
   "factor", "trend", "similar", "related", "context", "explain",
   "show", "find", "identify"]

/-- The aggregate-keyword subset used to break ties. -/
def AGGREGATE_KEYWORDS : List String := ["how many", "count", "average", "total"]

/-- `KeywordRouter.route(query)`: the two-set scored heuristic. -/
def route (query : String) : String :=
  let ql := lowerS query
  let math_score := (MATH_KEYWORDS.filter (fun kw => containsB kw ql)).length
  let semantic_score := (SEMANTIC_KEYWORDS.filter (fun kw => containsB kw ql)).length
  if semantic_score < math_score then "MATHEMATICAL"
  else if math_score < semantic_score then "SEMANTIC"
  else if AGGREGATE_KEYWORDS.any (fun kw => containsB kw ql) then "MATHEMATICAL"
  else "SEMANTIC"

end KeywordRouter

/-- The `forbidden` denylist of `LLMRoutingAgent.validate_code`, in source
order. -/
def forbidden_patterns : List String :=
  ["import os", "import sys", "import subprocess",
   "eval(", "exec(", "open(", "__import__", "compile("]

/-- `LLMRoutingAgent.validate_code(code)`: reject on the first denylisted
substring, then reject when the substring `result` is absent, else accept. -/
def validate_code (code : String) : Bool × String :=
  match forbidden_patterns.find? (fun p => containsB p code) with
  | some p => (false, "Unsafe pattern detected: " ++ p)
  | none =>
    if containsB "result" code then (true, "Code validation passed")
    else (false, "No \x27result\x27 variable found in code")

/-- `LLMRoutingAgent.generate_semantic_analysis(query, context)`.
`available` models `self.available`; `llmResponse` models `_call_groq`'s
return value (`none` on failure, and a falsy empty reply is also treated as
a failure by the source's `response if response else ...`). -/
def generate_semantic_analysis (available : Bool) (llmResponse : Option String)
    (context : String) : String :=
  if !available then "LLM not available. Retrieved context:\n\n" ++ context
  else
    match llmResponse with
    | some r => if r = "" then "Analysis unavailable. Context:\n" ++ context else r
    | none => "Analysis unavailable. Context:\n" ++ context

/-! ### Numeric rendering (Python format specifiers used by simple_qa.py)

Python formats binary doubles; the model formats the exact rational with
the same round-half-to-even rule, which agrees on every value exactly
representable in both. -/

/-- Split a reversed digit list into groups of three (low digits first). -/
def chunk3Aux : Nat → List Char → List (List Char)
  | 0, _ => []
  | _ + 1, [] => []
  | f + 1, l => l.take 3 :: chunk3Aux f (l.drop 3)

/-- Decimal rendering of a natural number with thousands separators,
as produced by the `,` flag of a Python format spec. -/
def commaGroup (n : Nat) : String :=
  let ds := (toString n).data.reverse
  String.intercalate "," (((chunk3Aux (ds.length + 1) ds).map
    (fun c => String.mk c.reverse)).reverse)

/-- Round `x * 10^p` half to even (the rounding used by Python's fixed-point
format specifiers). -/
def roundHalfEvenScaled (x : Rat) (p : Nat) : Int :=
  let n : Int := x.num * ((10 ^ p : Nat) : Int)
  let d : Int := (x.den : Int)
  let q := n.ediv d
  let r := n.emod d
  if 2 * r < d then q
  else if d < 2 * r then q + 1
  else if q % 2 = 0 then q else q + 1

/-- Digits of `|x|` rendered with `prec` decimal places, optionally grouped. -/
def fmtAbsFixed (prec : Nat) (x : Rat) (grouped : Bool) : String :=
  let n : Nat := (roundHalfEvenScaled |x| prec).toNat
  let base : Nat := 10 ^ prec
  let ipStr := if grouped then commaGroup (n / base) else toString (n / base)
  let fpRaw := toString (n % base)
  let fpStr := String.mk (List.replicate (prec - fpRaw.length) '0') ++ fpRaw
  if prec = 0 then ipStr else ipStr ++ "." ++ fpStr

/-- Python `format(x, ".Nf")`. -/
def fmtFixed (prec : Nat) (x : Rat) : String :=
  (if x < 0 then "-" else "") ++ fmtAbsFixed prec x false

/-- Python `format(x, ",.Nf")` (thousands separators). -/
def fmtCommaFixed (prec : Nat) (x : Rat) : String :=
  (if x < 0 then "-" else "") ++ fmtAbsFixed prec x true

/-- Python `int(x)`: truncation toward zero. -/
def intTrunc (x : Rat) : Int :=
  if x < 0 then -((-x).floor) else x.floor

/-! ### simple_qa.py — mathematical and semantic handlers -/

/-- The Python value held in the `result` binding after executing a
synthesized snippet, as discriminated by `_format_mathematical_result`:
a number, a pandas Series (index/value pairs, pre-rendered by `str`),
a pandas DataFrame (`Row` abstracts one row; its `to_string` rendering is a
parameter), a list (items pre-rendered by `str`), or anything else
(its `str` rendering). -/
inductive PyValue (Row : Type) where
  | num (x : Rat)
  | series (items : List (String × String))
  | frame (rows : List Row)
  | pylist (items : List String)
  | other (rendering : String)

/-- The per-item rendering `- {idx}: {val}` joined by newlines, used for
Series results. -/
def renderSeriesItems (items : List (String × String)) : String :=
  String.intercalate "\n" (items.map (fun p => "- " ++ p.1 ++ ": " ++ p.2))

/-- The per-item rendering `- {item}` joined by newlines, used for list
results. -/
def renderListItems (items : List String) : String :=
  String.intercalate "\n" (items.map (fun it => "- " ++ it))

/-- `_format_mathematical_result(result, query)`.  `renderFrame` models
pandas `DataFrame.to_string`. -/
def format_mathematical_result {Row : Type} (renderFrame : List Row → String)
    (result : PyValue Row) (query : String) : String :=
  match result with
  | .num x =>
    let ql := lowerS query
    if containsB "percentage" ql || containsB "percent" ql || containsB "%" ql then
      "Result: " ++ fmtFixed 2 x ++ "%"
    else if containsB "income" ql || containsB "amount" ql || containsB "loan" ql then
      "Result: INR " ++ fmtCommaFixed 2 x
    else if containsB "count" ql || containsB "how many" ql then
      "Result: " ++ toString (intTrunc x)
    else
      "Result: " ++ fmtCommaFixed 2 x
  | .series items =>
    if items.length ≤ 10 then "Results:\n" ++ renderSeriesItems items
    else
      "Top 10 Results:\n" ++ renderSeriesItems (items.take 10) ++
        "\n... (" ++ toString items.length ++ " total)"
  | .frame rows =>
    if rows.length ≤ 10 then "Results:\n" ++ renderFrame rows
    else
      "Top 10 Results:\n" ++ renderFrame (rows.take 10) ++
        "\n... (" ++ toString rows.length ++ " total rows)"
  | .pylist items =>
    if items.length ≤ 10 then "Results:\n" ++ renderListItems items
    else
      "Top 10 Results:\n" ++ renderListItems (items.take 10) ++
        "\n... (" ++ toString items.length ++ " total)"
  | .other r => "Result: " ++ r

/-- Observable events of `_handle_mathematical_dynamic`: each call to
`validate_code` or `execute_pandas_query` on a snippet would be recorded. -/
inductive MathEvent where
  | validateEv (code : String)
  | executeEv (code : String)
deriving DecidableEq

/-- `_handle_mathematical_dynamic(query, router, df)`.
`genCode` models the snippet returned by `generate_pandas_query` (`none` for
no/failed generation, and a falsy empty snippet is treated the same by the
source's `if not code:`); `execResult`/`execStatus` model the pair returned
by `execute_pandas_query` for that snippet on the DataFrame.  The event list
records every snippet handed to `execute_pandas_query`; the source contains
no call to `validate_code`, so no `validateEv` event is ever emitted. -/
def handle_mathematical_dynamic {Row : Type} (renderFrame : List Row → String)
    (genCode : Option String) (execResult : Option (PyValue Row)) (execStatus : String)
    (query : String) : (String × String) × List MathEvent :=
  match genCode with
  | none => (("Unable to generate query code. Please rephrase your question.", "Failed"), [])
  | some code =>
    if code = "" then
      (("Unable to generate query code. Please rephrase your question.", "Failed"), [])
    else
      match execResult with
      | some r =>
        ((format_mathematical_result renderFrame r query, "Groq-Generated Pandas Query"),
          [MathEvent.executeEv code])
      | none =>
        (("Execution Error: " ++ execStatus, "Failed"), [MathEvent.executeEv code])

/-- One retrieved document as used by `_prepare_semantic_context`: its
metadata mapping, with values pre-rendered by `str`. -/
structure SemDoc where
  metadata : List (String × String)
deriving DecidableEq

/-- Python `meta.get(key, default)` on the rendered metadata mapping. -/
def metaGet (m : List (String × String)) (k d : String) : String :=
  match m.find? (fun p => p.1 == k) with
  | some p => p.2
  | none => d

/-- Python `key in meta`. -/
def metaHas (m : List (String × String)) (k : String) : Bool :=
  (m.find? (fun p => p.1 == k)).isSome

/-- `_prepare_semantic_context(result, df)`: the context document built from
the retrieved documents and their similarity scores. -/
def prepare_semantic_context (docs : List SemDoc) (scores : List Rat) : String :=
  let blocks := (docs.zip scores).enum.flatMap (fun p =>
    let i := p.1
    let doc := p.2.1
    let score := p.2.2
    let m := doc.metadata
    ["\nRecord " ++ toString (i + 1) ++ " (Similarity: " ++ fmtFixed 3 score ++ "):",
     "- Customer: " ++ metaGet m "Customer_Name" "N/A",
     "- Loan Status: " ++ metaGet m "Loan_Status" "N/A",
     "- Loan Amount: INR " ++ metaGet m "Loan_Amount" "N/A",
     "- Income: INR " ++ metaGet m "Applicant_Income" "N/A",
     "- Credit Score: " ++ metaGet m "CIBIL_Score" "N/A",
     "- DTI Ratio: " ++ metaGet m "Debt_to_Income_Ratio" "N/A"]
    ++ (["Age", "Employment_Type", "Loan_Purpose"].filter (fun k => metaHas m k)).map
        (fun k => "- " ++ k ++ ": " ++ metaGet m k "N/A"))
  String.intercalate "\n"
    (("Retrieved " ++ toString docs.length ++ " relevant loan records:\n") :: blocks)

/-- `_handle_semantic_dynamic(query, router, df, retriever, embedding_gen)`:
empty retrieval short-circuits to an explicit no-documents answer; otherwise
the context document is built and handed to `generate_semantic_analysis`. -/
def handle_semantic_dynamic (available : Bool) (llmResponse : Option String)
    (docs : List SemDoc) (scores : List Rat) : String × String :=
  if docs = [] then ("No relevant documents found.", "Semantic Retrieval")
  else
    (generate_semantic_analysis available llmResponse (prepare_semantic_context docs scores),
      "Semantic Retrieval + Groq Analysis")

/-! ### Orchestrator (backend/agent_system/orchestrator.py) -/

/-- One conversation turn `{role, content}`. -/
structure Turn where
  role : String
  content : String
deriving DecidableEq

/-- Observable component invocations of `pydantic_ai_pipeline`. -/
inductive PipeEvent where
  | intentCall (query : String)
  | retrieveCall (query : String) (top_k : Nat)
  | explainCall
deriving DecidableEq

/-- The `Conversation Context` text block built from the last three stored
turns, each content truncated to 100 characters and suffixed `...`. -/
def contextSummary (hist : List Turn) : String :=
  if hist = [] then ""
  else
    "\n\nConversation Context:\n" ++
      String.join ((hist.drop (hist.length - 3)).map
        (fun t => t.role ++ ": " ++ String.mk (t.content.data.take 100) ++ "...\n"))

/-- Whether the golden fast path fires for a query: `get_answer` returns a
truthy (non-`None`, non-empty) answer. -/
def golden_hit (kb : List KBEntry) (query : String) : Bool :=
  match get_answer kb query with
  | some a => !(a == "")
  | none => false

/-- `AgentOrchestrator.pydantic_ai_pipeline(user_input, conversation_context)`.

Inputs: the curated entries `kb`, the query agent `analyze`
(`QueryUnderstandingAgent.analyze_query`), the retriever `retrieve`
(`retrieval_system.retrieve_cases`), the explanation agent `explain`
(`ExplanationAgent.generate_explanation`, a file not part of the embedded
core; the theorems hold for every such function), the stored
`conversation_history` `hist`, the optional `conversation_context` argument
`ctx`, and the query text.

Output: the result (`Except.error` models the uncaught Python exception),
the `conversation_history` after the call, and the component-invocation log.

The golden fast path constructs
`FinalResponseSchema(..., intent=IntentType.GENERAL, ..., source="golden_kb")`;
`IntentType` declares no member `GENERAL`, so Python raises `AttributeError`
there and the fast path never returns a response. -/
def pydantic_ai_pipeline (kb : List KBEntry)
    (analyze : String → QueryIntentSchema)
    (retrieve : String → Nat → List RetrievedLoanCaseSchema)
    (explain : String → QueryIntentSchema → List RetrievedLoanCaseSchema → FinalResponseSchema)
    (hist : List Turn) (ctx : Option (List Turn)) (query : String) :
    Except String FinalResponseSchema × List Turn × List PipeEvent :=
  let hist1 :=
    match ctx with
    | some l => if l = [] then hist else l
    | none => hist
  if golden_hit kb query then
    (Except.error "AttributeError: GENERAL", hist1, [])
  else
    let intent := analyze query
    let top_k := if intent.top_k_hint = 0 then 5 else intent.top_k_hint
    let cases := retrieve query top_k
    let cs := contextSummary hist1
    let enriched := if cs = "" then query else query ++ cs
    let resp := explain enriched intent cases
    (Except.ok resp,
      hist1 ++ [⟨"user", query⟩, ⟨"assistant", resp.summary⟩],
      [PipeEvent.intentCall query, PipeEvent.retrieveCall query top_k, PipeEvent.explainCall])

/-- `AgentOrchestrator.clear_history`. -/
def clear_history : List Turn := []

/-! ### Interpretation of a spec phrase, and concrete instances used below -/

/-- Split at newline characters (the line structure Python sees in a
multi-line snippet). -/
def splitLinesAux : List Char → List Char → List (List Char)
  | [], acc => [acc.reverse]
  | c :: rest, acc =>
    if c = '\n' then acc.reverse :: splitLinesAux rest []
    else splitLinesAux rest (c :: acc)

/-- Formalisation of the spec phrase "never assigns the required output
binding (the variable named `result`)": some line of the snippet, stripped of
surrounding whitespace, is a plain or augmented assignment whose target is
exactly `result`. -/
def assigns_result_binding (code : String) : Bool :=
  (splitLinesAux code.data []).any fun line =>
    let t := stripL line
    prefixB "result".data t &&
    (let rest := (t.drop 6).dropWhile (fun c => c == ' ' || c == '\t')
     (prefixB ['='] rest && !prefixB ['=', '='] rest) ||
       prefixB ['+', '='] rest || prefixB ['-', '='] rest ||
       prefixB ['*', '='] rest || prefixB ['/', '='] rest)

/-- A one-entry curated set used as a concrete instance. -/
def kbDemo : List KBEntry := [⟨"kb1", ["cibil"], "CIBIL is a consumer credit score."⟩]

/-- A concrete retriever instance (no cases). -/
def retrieveDemo : String → Nat → List RetrievedLoanCaseSchema := fun _ _ => []

/-- A concrete explanation-agent instance. -/
def explainDemo : String → QueryIntentSchema → List RetrievedLoanCaseSchema →
    FinalResponseSchema :=
  fun q i cases =>
    { query := q, intent := i.intent, retrieved_case_count := cases.length,
      summary := "demo summary", compliance_disclaimer := "demo disclaimer" }

/-! ### Lemmas about the best-score scan of `find_best_match` -/

lemma scanStep_snd (st : Option KBEntry × Rat) (p : KBEntry × Rat) :
    (scanStep st p).2 = max st.2 p.2 := by
  unfold scanStep
  rcases le_or_lt p.2 st.2 with h | h
  · rw [if_neg (not_lt.mpr h), max_eq_left h]
  · rw [if_pos h, max_eq_right h.le]

lemma foldl_scan_snd (l : List (KBEntry × Rat)) (st : Option KBEntry × Rat) :
    (l.foldl scanStep st).2 = (l.map Prod.snd).foldl max st.2 := by
  induction l generalizing st with
  | nil => rfl
  | cons p l ih => simp [List.foldl_cons, ih, scanStep_snd]

lemma foldl_max_init_le (l : List Rat) (a : Rat) : a ≤ l.foldl max a := by
  induction l generalizing a with
  | nil => exact le_refl a
  | cons y l ih => exact le_trans (le_max_left a y) (ih (max a y))

lemma foldl_max_mem_le (l : List Rat) (a x : Rat) (hx : x ∈ l) : x ≤ l.foldl max a := by
  induction l generalizing a with
  | nil => cases hx
  | cons y l ih =>
    rw [List.foldl_cons]
    rcases List.mem_cons.mp hx with h | h
    · subst h
      exact le_trans (le_max_right a x) (foldl_max_init_le l (max a x))
    · exact ih (max a y) h

lemma foldl_max_cases (l : List Rat) (a : Rat) : l.foldl max a = a ∨ l.foldl max a ∈ l := by
  induction l generalizing a with
  | nil => exact Or.inl rfl
  | cons y l ih =>
    rcases ih (max a y) with h | h
    · rcases max_choice a y with hm | hm
      · exact Or.inl (by rw [List.foldl_cons, h, hm])
      · exact Or.inr (by rw [List.foldl_cons, h, hm]; exact List.mem_cons_self y l)
    · exact Or.inr (List.mem_cons_of_mem y h)

lemma foldl_max_lt_iff (l : List Rat) (a t : Rat) :
    l.foldl max a < t ↔ a < t ∧ ∀ x ∈ l, x < t := by
  induction l generalizing a with
  | nil => simp
  | cons y l ih =>
    simp only [List.foldl_cons, ih, max_lt_iff, List.forall_mem_cons]
    tauto

lemma foldl_scan_fst_isSome (l : List (KBEntry × Rat)) (st : Option KBEntry × Rat)
    (h : st.1.isSome) : ((l.foldl scanStep st).1).isSome := by
  induction l generalizing st with
  | nil => exact h
  | cons p l ih =>
    rw [List.foldl_cons]
    by_cases hc : st.2 < p.2
    · exact ih _ (by simp [scanStep, hc])
    · exact ih _ (by simpa [scanStep, hc] using h)

lemma foldl_scan_fst_progress (l : List (KBEntry × Rat)) (st : Option KBEntry × Rat)
    (h : st.2 < (l.foldl scanStep st).2) : ((l.foldl scanStep st).1).isSome := by
  induction l generalizing st with
  | nil => exact absurd h (lt_irrefl _)
  | cons p l ih =>
    by_cases hc : st.2 < p.2
    · rw [List.foldl_cons]
      exact foldl_scan_fst_isSome l _ (by simp [scanStep, hc])
    · have hs : scanStep st p = st := by simp [scanStep, hc]
      rw [List.foldl_cons, hs] at h ⊢
      exact ih st h

/-! ### Claim theorems -/

/-- C6: `find_best_match(query, threshold)` returns a match exactly when the
maximum boosted similarity score over all entries and variants reaches the
threshold, and then the returned confidence score is that maximum; below the
threshold it returns `none` and no low-confidence entry is surfaced.  Stated
for every positive threshold (the default is `0.65`). -/
theorem find_best_match_threshold_gate (entries : List KBEntry) (q : String) (t : Rat)
    (ht : 0 < t) :
    (find_best_match entries q t = none ↔ ∀ s ∈ kbScores entries q, s < t) ∧
    (∀ e s, find_best_match entries q t = some (e, s) →
      s ∈ kbScores entries q ∧ (∀ x ∈ kbScores entries q, x ≤ s) ∧ t ≤ s) := by
  have hsnd : ((kbPairs entries (stripS (lowerS q))).foldl scanStep (none, 0)).2
      = (kbScores entries q).foldl max 0 :=
    foldl_scan_snd (kbPairs entries (stripS (lowerS q))) (none, 0)
  by_cases hth : t ≤ ((kbPairs entries (stripS (lowerS q))).foldl scanStep (none, 0)).2
  · have h0 : (0 : Rat) < ((kbPairs entries (stripS (lowerS q))).foldl scanStep (none, 0)).2 :=
      lt_of_lt_of_le ht hth
    have hsome := foldl_scan_fst_progress (kbPairs entries (stripS (lowerS q))) (none, 0) h0
    obtain ⟨e0, he0⟩ := Option.isSome_iff_exists.mp hsome
    have hfbm : find_best_match entries q t =
        some (e0, ((kbPairs entries (stripS (lowerS q))).foldl scanStep (none, 0)).2) := by
      unfold find_best_match
      rw [if_pos hth, he0]
      rfl
    have hmem : ((kbPairs entries (stripS (lowerS q))).foldl scanStep (none, 0)).2
        ∈ kbScores entries q := by
      rcases foldl_max_cases (kbScores entries q) 0 with hc | hc
      · rw [hsnd, hc] at h0; exact absurd h0 (lt_irrefl 0)
      · rw [hsnd]; exact hc
    constructor
    · constructor
      · intro hnone; rw [hfbm] at hnone; cases hnone
      · intro hall
        exact absurd (hall _ hmem) (not_lt.mpr hth)
    · intro e s hsome'
      rw [hfbm] at hsome'
      simp only [Option.some.injEq, Prod.mk.injEq] at hsome'
      obtain ⟨he, hs⟩ := hsome'
      subst hs
      refine ⟨hmem, ?_, hth⟩
      intro x hx
      rw [hsnd]
      exact foldl_max_mem_le _ 0 x hx
  · have hfbm : find_best_match entries q t = none := by
      unfold find_best_match
      rw [if_neg hth]
    constructor
    · rw [hfbm]
      simp only [true_iff]
      have hlt : ((kbScores entries q).foldl max 0) < t := by
        rw [← hsnd]; exact not_le.mp hth
      exact fun s hs => lt_of_le_of_lt (foldl_max_mem_le _ 0 s hs) hlt
    · intro e s hsome'
      rw [hfbm] at hsome'
      cases hsome'

/-- C6 witness: on the one-entry curated set, the query `cibil` scores `1`,
which is the maximum scanned score and meets the `0.65` threshold. -/
theorem find_best_match_threshold_gate_witness :
    (1 : Rat) ∈ kbScores kbDemo "cibil" ∧
    (∀ x ∈ kbScores kbDemo "cibil", x ≤ 1) ∧ mkRat 13 20 ≤ 1 :=
  (find_best_match_threshold_gate kbDemo "cibil" (mkRat 13 20) (by decide)).2
    ⟨"kb1", ["cibil"], "CIBIL is a consumer credit score."⟩ 1 (by decide)

/-- C5 counterexample: the variant `" a b"` is a case-insensitive substring
of the query `" a bc"`, yet the recorded pair score is `0.75 < 0.8`, because
`find_best_match` strips the query (only) before the substring test. -/
theorem substring_boost_strip_counterexample :
    containsB (lowerS " a b") (lowerS " a bc") = true ∧
    pair_score " a bc" " a b" < mkRat 4 5 :=
  ⟨by decide, by decide⟩

/-- C5 (amended): whenever the lowered variant and the lowered *stripped*
query are substrings of one another, the recorded pair score is at least
`0.8`; consequently such a pair always produces a match whose confidence is
at least `0.8` under the default `0.65` threshold. -/
theorem substring_boost_after_strip :
    (∀ q qn : String,
      (containsB (lowerS qn) (stripS (lowerS q)) = true ∨
        containsB (stripS (lowerS q)) (lowerS qn) = true) →
      mkRat 4 5 ≤ pair_score q qn) ∧
    (∀ (entries : List KBEntry) (e : KBEntry) (q qn : String),
      e ∈ entries → qn ∈ e.questions →
      (containsB (lowerS qn) (stripS (lowerS q)) = true ∨
        containsB (stripS (lowerS q)) (lowerS qn) = true) →
      ∃ r, find_best_match entries q (mkRat 13 20) = some r ∧ mkRat 4 5 ≤ r.2) := by
  have hpair : ∀ q qn : String,
      (containsB (lowerS qn) (stripS (lowerS q)) = true ∨
        containsB (stripS (lowerS q)) (lowerS qn) = true) →
      mkRat 4 5 ≤ pair_score q qn := by
    intro q qn h
    have hb : (containsB (lowerS qn) (stripS (lowerS q)) ||
        containsB (stripS (lowerS q)) (lowerS qn)) = true := by
      rcases h with h | h <;> simp [h]
    simp only [pair_score, boostScore, hb, if_true]
    exact le_max_right _ _
  refine ⟨hpair, ?_⟩
  intro entries e q qn he hqn hb
  have hp : (e, boostScore (stripS (lowerS q)) qn) ∈ kbPairs entries (stripS (lowerS q)) := by
    unfold kbPairs
    exact List.mem_flatMap.mpr ⟨e, he, List.mem_map_of_mem _ hqn⟩
  have hs : boostScore (stripS (lowerS q)) qn ∈ kbScores entries q :=
    List.mem_map_of_mem Prod.snd hp
  have hscore : mkRat 4 5 ≤ boostScore (stripS (lowerS q)) qn := hpair q qn hb
  have hbest : mkRat 4 5 ≤
      ((kbPairs entries (stripS (lowerS q))).foldl scanStep (none, 0)).2 := by
    rw [foldl_scan_snd]
    exact le_trans hscore (foldl_max_mem_le (kbScores entries q) 0 _ hs)
  have hth : mkRat 13 20 ≤
      ((kbPairs entries (stripS (lowerS q))).foldl scanStep (none, 0)).2 :=
    le_trans (by decide) hbest
  have h0 : (0 : Rat) <
      ((kbPairs entries (stripS (lowerS q))).foldl scanStep (none, 0)).2 :=
    lt_of_lt_of_le (by decide) hbest
  have hsome := foldl_scan_fst_progress (kbPairs entries (stripS (lowerS q))) (none, 0) h0
  obtain ⟨e0, he0⟩ := Option.isSome_iff_exists.mp hsome
  refine ⟨(e0, ((kbPairs entries (stripS (lowerS q))).foldl scanStep (none, 0)).2), ?_, hbest⟩
  unfold find_best_match
  rw [if_pos hth, he0]
  rfl

/-- C5 witness: the query `what is cibil` contains the variant `cibil`, so
the match is returned with confidence at least `0.8`. -/
theorem substring_boost_after_strip_witness :
    ∃ r, find_best_match kbDemo "what is cibil" (mkRat 13 20) = some r ∧ mkRat 4 5 ≤ r.2 :=
  substring_boost_after_strip.2 kbDemo ⟨"kb1", ["cibil"], "CIBIL is a consumer credit score."⟩
    "what is cibil" "cibil" (by decide) (by decide) (Or.inl (by decide))

/-- C1: `validate_code` does reject every snippet containing the denylisted
substring `import os`, but the mathematical path of `simple_qa.py` never
calls `validate_code`: `_handle_mathematical_dynamic` hands every non-empty
generated snippet straight to `execute_pandas_query`, so an `import os`
snippet reaches execution without having passed validation (no `validateEv`
event ever occurs; the concrete bad snippet is executed). -/
theorem validate_code_not_called_on_math_path :
    (∀ code : String, containsB "import os" code = true → (validate_code code).1 = false) ∧
    validate_code "import os\nresult = 1" = (false, "Unsafe pattern detected: import os") ∧
    (∀ (gen : Option String) (er : Option (PyValue Unit)) (st q : String)
      (rf : List Unit → String) (c : String),
        MathEvent.validateEv c ∉ (handle_mathematical_dynamic rf gen er st q).2) ∧
    (handle_mathematical_dynamic (fun (_ : List Unit) => "")
        (some "import os\nresult = 1") (none : Option (PyValue Unit)) "err" "how many").2
      = [MathEvent.executeEv "import os\nresult = 1"] := by
  refine ⟨?_, by decide, ?_, by decide⟩
  · intro code h
    have hf : forbidden_patterns.find? (fun p => containsB p code) = some "import os" := by
      have : forbidden_patterns =
          "import os" :: ["import sys", "import subprocess",
            "eval(", "exec(", "open(", "__import__", "compile("] := rfl
      rw [this]
      exact List.find?_cons_of_pos _ (by simpa using h)
    simp [validate_code, hf]
  · intro gen er st q rf c
    cases gen with
    | none => simp [handle_mathematical_dynamic]
    | some code =>
      by_cases hc : code = ""
      · simp [handle_mathematical_dynamic, hc]
      · cases er <;> simp [handle_mathematical_dynamic, hc]

/-- C1 witness: the concrete `import os` snippet is rejected by validation,
yet the mathematical path still emits an execute event for it. -/
theorem validate_code_not_called_on_math_path_witness :
    (validate_code "import os\nresult = 1").1 = false ∧
    MathEvent.validateEv "import os\nresult = 1" ∉
      (handle_mathematical_dynamic (fun (_ : List Unit) => "")
        (some "import os\nresult = 1") (none : Option (PyValue Unit)) "err" "how many").2 :=
  ⟨validate_code_not_called_on_math_path.1 "import os\nresult = 1" (by decide),
   validate_code_not_called_on_math_path.2.2.1 (some "import os\nresult = 1") none "err"
     "how many" (fun _ => "") "import os\nresult = 1"⟩

/-- C2: on every golden-KB hit the pipeline never invokes the intent
classifier or the retriever (the event log is empty), but it does not return
a response carrying `source = "golden_kb"`: the fast path raises
`AttributeError` (it references the nonexistent enum member
`IntentType.GENERAL`), and `FinalResponseSchema` declares no `source` field
at all, so the `source="golden_kb"` keyword passed by the orchestrator is
dropped by pydantic (`services.py` reading `agent_response.source` would
fail).  The one-entry curated set with query `cibil` is a concrete failing
input. -/
theorem golden_fast_path_diagnosis :
    (∀ (kb : List KBEntry) analyze retrieve explain hist ctx q, golden_hit kb q = true →
      (pydantic_ai_pipeline kb analyze retrieve explain hist ctx q).2.2 = [] ∧
      (pydantic_ai_pipeline kb analyze retrieve explain hist ctx q).1 =
        Except.error "AttributeError: GENERAL") ∧
    "source" ∉ finalResponseModelDumpKeys ∧
    golden_hit kbDemo "cibil" = true ∧
    pydantic_ai_pipeline kbDemo fallback_intent retrieveDemo explainDemo [] none "cibil"
      = (Except.error "AttributeError: GENERAL", [], []) := by
  refine ⟨?_, by decide, by decide, ?_⟩
  · intro kb analyze retrieve explain hist ctx q h
    constructor <;> simp [pydantic_ai_pipeline, h]
  · have h : golden_hit kbDemo "cibil" = true := by decide
    simp [pydantic_ai_pipeline, h]

/-- C2 witness: the general golden-path fact applied at the concrete failing
input. -/
theorem golden_fast_path_diagnosis_witness :
    (pydantic_ai_pipeline kbDemo fallback_intent retrieveDemo explainDemo [] none "cibil").2.2
      = [] ∧
    (pydantic_ai_pipeline kbDemo fallback_intent retrieveDemo explainDemo [] none "cibil").1
      = Except.error "AttributeError: GENERAL" :=
  golden_fast_path_diagnosis.1 kbDemo fallback_intent retrieveDemo explainDemo [] none "cibil"
    (by decide)

/-- C3 counterexample: the snippet `x = resultant_value` never assigns the
variable `result` and contains no denylisted construct, yet `validate_code`
accepts it, because the check is substring containment of `result`, not an
assignment check. -/
theorem validate_code_substring_counterexample :
    assigns_result_binding "x = resultant_value" = false ∧
    forbidden_patterns.all (fun p => !containsB p "x = resultant_value") = true ∧
    validate_code "x = resultant_value" = (true, "Code validation passed") :=
  ⟨by decide, by decide, by decide⟩

/-- C3 (amended): among snippets free of denylisted constructs,
`validate_code` rejects (with the explanatory no-`result` message) exactly
those that do not contain the substring `result`; acceptance is equivalent
to being denylist-free and containing that substring. -/
theorem validate_code_requires_result_substring :
    (∀ code : String, (∀ p ∈ forbidden_patterns, containsB p code = false) →
      containsB "result" code = false →
      validate_code code = (false, "No \x27result\x27 variable found in code")) ∧
    (∀ code : String, (validate_code code).1 = true ↔
      ((∀ p ∈ forbidden_patterns, containsB p code = false) ∧
        containsB "result" code = true)) := by
  constructor
  · intro code hall hres
    have hf : forbidden_patterns.find? (fun p => containsB p code) = none :=
      List.find?_eq_none.mpr (fun p hp => by simp [hall p hp])
    simp [validate_code, hf, hres]
  · intro code
    rcases hf : forbidden_patterns.find? (fun p => containsB p code) with _ | p
    · have hall := List.find?_eq_none.mp hf
      by_cases hres : containsB "result" code = true
      · simp [validate_code, hf, hres]
        intro p hp
        have := hall p hp
        simpa using this
      · simp [validate_code, hf, Bool.of_not_eq_true hres]
    · have hp : containsB p code = true := by simpa using List.find?_some hf
      have hmem : p ∈ forbidden_patterns := List.mem_of_find?_eq_some hf
      simp [validate_code, hf]
      intro hall
      rw [hall p hmem] at hp
      cases hp

/-- C3 witness: the snippet `x = 5` is denylist-free and lacks the substring
`result`, so it is rejected with the explanatory message. -/
theorem validate_code_requires_result_substring_witness :
    validate_code "x = 5" = (false, "No \x27result\x27 variable found in code") :=
  validate_code_requires_result_substring.1 "x = 5" (by decide) (by decide)

/-- C4 counterexample: with the completion service unavailable,
`route_query` classifies `why is the average risk factor` MATHEMATICAL,
while the two-set scored heuristic the claim describes (implemented by
`KeywordRouter.route`: one MATHEMATICAL hit `average` versus three SEMANTIC
hits `why`, `risk`, `factor`) yields SEMANTIC — the fallback actually used
is `_keyword_routing`, not the scored heuristic. -/
theorem route_query_fallback_counterexample :
    route_query false none "why is the average risk factor" = "MATHEMATICAL" ∧
    KeywordRouter.route "why is the average risk factor" = "SEMANTIC" :=
  ⟨by decide, by decide⟩

/-- C4 (amended): on unavailability, transport failure, a falsy reply, or an
answer naming neither class, `route_query` falls back to `_keyword_routing`,
which returns MATHEMATICAL exactly when some keyword of its single fixed
list occurs in the lowercased query and SEMANTIC otherwise.  The two-set
scored heuristic described by the claim exists as `KeywordRouter.route`
(strictly more MATHEMATICAL hits → MATHEMATICAL, strictly more SEMANTIC
hits → SEMANTIC, ties resolved by the aggregate subset), but `route_query`
never invokes it. -/
theorem route_query_fallback_behaviour :
    (∀ (o : Option String) (q : String), route_query false o q = keyword_routing q) ∧
    (∀ q : String, route_query true none q = keyword_routing q) ∧
    (∀ q : String, route_query true (some "") q = keyword_routing q) ∧
    (∀ q r : String, r ≠ "" →
      containsB "MATHEMATICAL" (upperS (stripS r)) = false →
      containsB "SEMANTIC" (upperS (stripS r)) = false →
      route_query true (some r) q = keyword_routing q) ∧
    (∀ q : String, keyword_routing q = "MATHEMATICAL" ↔
      ∃ kw ∈ keyword_routing_keywords, containsB kw (lowerS q) = true) ∧
    (∀ q : String, keyword_routing q = "SEMANTIC" ↔
      ∀ kw ∈ keyword_routing_keywords, containsB kw (lowerS q) = false) ∧
    (∀ q : String,
      ((KeywordRouter.SEMANTIC_KEYWORDS.filter (fun kw => containsB kw (lowerS q))).length <
        (KeywordRouter.MATH_KEYWORDS.filter (fun kw => containsB kw (lowerS q))).length →
        KeywordRouter.route q = "MATHEMATICAL") ∧
      ((KeywordRouter.MATH_KEYWORDS.filter (fun kw => containsB kw (lowerS q))).length <
        (KeywordRouter.SEMANTIC_KEYWORDS.filter (fun kw => containsB kw (lowerS q))).length →
        KeywordRouter.route q = "SEMANTIC") ∧
      ((KeywordRouter.MATH_KEYWORDS.filter (fun kw => containsB kw (lowerS q))).length =
        (KeywordRouter.SEMANTIC_KEYWORDS.filter (fun kw => containsB kw (lowerS q))).length →
        KeywordRouter.route q =
          (if KeywordRouter.AGGREGATE_KEYWORDS.any (fun kw => containsB kw (lowerS q))
            then "MATHEMATICAL" else "SEMANTIC"))) := by
  refine ⟨fun o q => rfl, fun q => rfl, fun q => rfl, ?_, ?_, ?_, ?_⟩
  · intro q r hr hm hs
    simp [route_query, hr, hm, hs]
  · intro q
    unfold keyword_routing
    by_cases h : keyword_routing_keywords.any (fun kw => containsB kw (lowerS q)) = true
    · simp only [h, if_true, true_iff]
      simpa using List.any_eq_true.mp h
    · have h' := Bool.of_not_eq_true h
      simp only [h', Bool.false_eq_true, if_false]
      constructor
      · intro hne; exact absurd hne (by decide)
      · intro ⟨kw, hkw, hc⟩
        exact absurd (List.any_eq_true.mpr ⟨kw, hkw, hc⟩) h
  · intro q
    unfold keyword_routing
    by_cases h : keyword_routing_keywords.any (fun kw => containsB kw (lowerS q)) = true
    · simp only [h, if_true]
      constructor
      · intro hne; exact absurd hne (by decide)
      · intro hall
        obtain ⟨kw, hkw, hc⟩ := List.any_eq_true.mp h
        rw [hall kw hkw] at hc
        cases hc
    · have h' := Bool.of_not_eq_true h
      simp only [h', Bool.false_eq_true, if_false, true_iff]
      intro kw hkw
      by_contra hc
      exact absurd (List.any_eq_true.mpr ⟨kw, hkw, Bool.of_not_eq_false hc⟩) h
  · intro q
    refine ⟨?_, ?_, ?_⟩
    · intro h
      simp [KeywordRouter.route, h]
    · intro h
      have h' : ¬ ((KeywordRouter.SEMANTIC_KEYWORDS.filter
          (fun kw => containsB kw (lowerS q))).length <
          (KeywordRouter.MATH_KEYWORDS.filter (fun kw => containsB kw (lowerS q))).length) :=
        not_lt.mpr h.le
      simp [KeywordRouter.route, h, h']
    · intro h
      have h1 : ¬ ((KeywordRouter.SEMANTIC_KEYWORDS.filter
          (fun kw => containsB kw (lowerS q))).length <
          (KeywordRouter.MATH_KEYWORDS.filter (fun kw => containsB kw (lowerS q))).length) :=
        not_lt.mpr h.le
      have h2 : ¬ ((KeywordRouter.MATH_KEYWORDS.filter
          (fun kw => containsB kw (lowerS q))).length <
          (KeywordRouter.SEMANTIC_KEYWORDS.filter (fun kw => containsB kw (lowerS q))).length) :=
        not_lt.mpr h.ge
      simp [KeywordRouter.route, h1, h2]

/-- C4 witness: an unparsable completion reply (`UNKNOWN`) falls back to the
single-list heuristic, applied at a concrete query. -/
theorem route_query_fallback_behaviour_witness :
    route_query true (some "UNKNOWN") "hello there" = keyword_routing "hello there" :=
  route_query_fallback_behaviour.2.2.2.1 "hello there" "UNKNOWN" (by decide) (by decide)
    (by decide)

/-- C7: the intent-classifier fallback defaults to `general_inquiry` and
`neutral`, resolves the intent by the keyword priority order
reject → approve → similar → risk (first match wins, case-insensitive),
sets the tone to `audit` exactly when `audit` occurs, and fixes the
confidence at `0.5` (with the schema defaults for the other fields). -/
theorem fallback_intent_characterisation (q : String) :
    ((fallback_intent q).intent = IntentType.why_rejected ↔
      containsB "reject" (lowerS q) = true) ∧
    ((fallback_intent q).intent = IntentType.why_approved ↔
      (containsB "reject" (lowerS q) = false ∧ containsB "approve" (lowerS q) = true)) ∧
    ((fallback_intent q).intent = IntentType.similar_cases ↔
      (containsB "reject" (lowerS q) = false ∧ containsB "approve" (lowerS q) = false ∧
        containsB "similar" (lowerS q) = true)) ∧
    ((fallback_intent q).intent = IntentType.risk_analysis ↔
      (containsB "reject" (lowerS q) = false ∧ containsB "approve" (lowerS q) = false ∧
        containsB "similar" (lowerS q) = false ∧ containsB "risk" (lowerS q) = true)) ∧
    ((fallback_intent q).intent = IntentType.general_inquiry ↔
      (containsB "reject" (lowerS q) = false ∧ containsB "approve" (lowerS q) = false ∧
        containsB "similar" (lowerS q) = false ∧ containsB "risk" (lowerS q) = false)) ∧
    ((fallback_intent q).compliance_tone = ComplianceTone.audit ↔
      containsB "audit" (lowerS q) = true) ∧
    ((fallback_intent q).compliance_tone = ComplianceTone.neutral ↔
      containsB "audit" (lowerS q) = false) ∧
    (fallback_intent q).confidence_score = mkRat 1 2 ∧
    (fallback_intent q).loan_id = none ∧
    (fallback_intent q).top_k_hint = 5 ∧
    (fallback_intent q).filters = [] := by
  cases hr : containsB "reject" (lowerS q) <;>
    cases ha : containsB "approve" (lowerS q) <;>
      cases hs : containsB "similar" (lowerS q) <;>
        cases hk : containsB "risk" (lowerS q) <;>
          cases hau : containsB "audit" (lowerS q) <;>
            simp [fallback_intent, hr, ha, hs, hk, hau]

/-- C7 witness: a query containing `reject`, `approve` and `audit` resolves
to `why_rejected` (first in priority order) with the `audit` tone. -/
theorem fallback_intent_characterisation_witness :
    (fallback_intent "audit why it was rejected and approved").intent =
      IntentType.why_rejected ∧
    (fallback_intent "audit why it was rejected and approved").compliance_tone =
      ComplianceTone.audit :=
  ⟨(fallback_intent_characterisation "audit why it was rejected and approved").1.mpr
      (by decide),
   (fallback_intent_characterisation
      "audit why it was rejected and approved").2.2.2.2.2.1.mpr (by decide)⟩

/-- C8: on the semantic path, zero retrieved documents yield the explicit
no-documents answer (never an empty or erroring one); and when the
completion service is unavailable, fails, or returns a falsy reply, the
returned text is the retrieved-context document itself behind an
unavailability label, not a propagated exception. -/
theorem semantic_path_degradation :
    (∀ (available : Bool) (o : Option String) (scores : List Rat),
      handle_semantic_dynamic available o [] scores =
        ("No relevant documents found.", "Semantic Retrieval")) ∧
    (∀ (o : Option String) (docs : List SemDoc) (scores : List Rat), docs ≠ [] →
      handle_semantic_dynamic false o docs scores =
        ("LLM not available. Retrieved context:\n\n" ++ prepare_semantic_context docs scores,
          "Semantic Retrieval + Groq Analysis")) ∧
    (∀ (docs : List SemDoc) (scores : List Rat), docs ≠ [] →
      handle_semantic_dynamic true none docs scores =
        ("Analysis unavailable. Context:\n" ++ prepare_semantic_context docs scores,
          "Semantic Retrieval + Groq Analysis")) ∧
    (∀ (docs : List SemDoc) (scores : List Rat), docs ≠ [] →
      handle_semantic_dynamic true (some "") docs scores =
        ("Analysis unavailable. Context:\n" ++ prepare_semantic_context docs scores,
          "Semantic Retrieval + Groq Analysis")) := by
  refine ⟨fun available o scores => rfl, ?_, ?_, ?_⟩
  · intro o docs scores hd
    simp [handle_semantic_dynamic, generate_semantic_analysis, hd]
  · intro docs scores hd
    simp [handle_semantic_dynamic, generate_semantic_analysis, hd]
  · intro docs scores hd
    simp [handle_semantic_dynamic, generate_semantic_analysis, hd]

/-- C8 witness: one retrieved document with the service unavailable returns
the labeled context document. -/
theorem semantic_path_degradation_witness :
    handle_semantic_dynamic false none [⟨[("Customer_Name", "A")]⟩] [mkRat 1 2] =
      ("LLM not available. Retrieved context:\n\n" ++
        prepare_semantic_context [⟨[("Customer_Name", "A")]⟩] [mkRat 1 2],
        "Semantic Retrieval + Groq Analysis") :=
  semantic_path_degradation.2.1 none [⟨[("Customer_Name", "A")]⟩] [mkRat 1 2] (by decide)

/-- C9: a numeric result is rendered as a percentage under percentage cues,
currency-style (`INR`, comma-grouped, two decimals) under income/amount/loan
cues, as a truncated integer under count cues, and as a plain two-decimal
number otherwise; a Series, DataFrame or list longer than 10 rows is
truncated to its first 10 rows with a `... (N total)` suffix carrying the
full length (`... (N total rows)` for a DataFrame). -/
theorem math_result_formatting :
    (∀ (Row : Type) (render : List Row → String) (x : Rat) (q : String),
      (containsB "percentage" (lowerS q) || containsB "percent" (lowerS q) ||
        containsB "%" (lowerS q)) = true →
      format_mathematical_result render (PyValue.num x) q =
        "Result: " ++ fmtFixed 2 x ++ "%") ∧
    (∀ (Row : Type) (render : List Row → String) (x : Rat) (q : String),
      (containsB "percentage" (lowerS q) || containsB "percent" (lowerS q) ||
        containsB "%" (lowerS q)) = false →
      (containsB "income" (lowerS q) || containsB "amount" (lowerS q) ||
        containsB "loan" (lowerS q)) = true →
      format_mathematical_result render (PyValue.num x) q =
        "Result: INR " ++ fmtCommaFixed 2 x) ∧
    (∀ (Row : Type) (render : List Row → String) (x : Rat) (q : String),
      (containsB "percentage" (lowerS q) || containsB "percent" (lowerS q) ||
        containsB "%" (lowerS q)) = false →
      (containsB "income" (lowerS q) || containsB "amount" (lowerS q) ||
        containsB "loan" (lowerS q)) = false →
      (containsB "count" (lowerS q) || containsB "how many" (lowerS q)) = true →
      format_mathematical_result render (PyValue.num x) q =
        "Result: " ++ toString (intTrunc x)) ∧
    (∀ (Row : Type) (render : List Row → String) (x : Rat) (q : String),
      (containsB "percentage" (lowerS q) || containsB "percent" (lowerS q) ||
        containsB "%" (lowerS q)) = false →
      (containsB "income" (lowerS q) || containsB "amount" (lowerS q) ||
        containsB "loan" (lowerS q)) = false →
      (containsB "count" (lowerS q) || containsB "how many" (lowerS q)) = false →
      format_mathematical_result render (PyValue.num x) q =
        "Result: " ++ fmtCommaFixed 2 x) ∧
    (∀ (Row : Type) (render : List Row → String) (items : List (String × String))
      (q : String), 10 < items.length →
      format_mathematical_result render (PyValue.series items) q =
        "Top 10 Results:\n" ++ renderSeriesItems (items.take 10) ++
          "\n... (" ++ toString items.length ++ " total)") ∧
    (∀ (Row : Type) (render : List Row → String) (rows : List Row) (q : String),
      10 < rows.length →
      format_mathematical_result render (PyValue.frame rows) q =
        "Top 10 Results:\n" ++ render (rows.take 10) ++
          "\n... (" ++ toString rows.length ++ " total rows)") ∧
    (∀ (Row : Type) (render : List Row → String) (items : List String) (q : String),
      10 < items.length →
      format_mathematical_result render (PyValue.pylist items) q =
        "Top 10 Results:\n" ++ renderListItems (items.take 10) ++
          "\n... (" ++ toString items.length ++ " total)") := by
  refine ⟨?_, ?_, ?_, ?_, ?_, ?_, ?_⟩
  · intro Row render x q h
    simp [format_mathematical_result, h]
  · intro Row render x q h1 h2
    simp [format_mathematical_result, h1, h2]
  · intro Row render x q h1 h2 h3
    simp [format_mathematical_result, h1, h2, h3]
  · intro Row render x q h1 h2 h3
    simp [format_mathematical_result, h1, h2, h3]
  · intro Row render items q h
    simp only [format_mathematical_result]
    rw [if_neg (by omega)]
  · intro Row render rows q h
    simp only [format_mathematical_result]
    rw [if_neg (by omega)]
  · intro Row render items q h
    simp only [format_mathematical_result]
    rw [if_neg (by omega)]

/-- C9 witness: `average loan amount` renders currency-style, and an
11-item Series is truncated to 10 with the total suffix. -/
theorem math_result_formatting_witness :
    format_mathematical_result (fun (_ : List Unit) => "") (PyValue.num 5)
      "average loan amount" = "Result: INR 5.00" ∧
    format_mathematical_result (fun (_ : List Unit) => "")
      (PyValue.series (List.replicate 11 ("i", "v"))) "list them" =
      "Top 10 Results:\n" ++ renderSeriesItems (List.replicate 10 ("i", "v")) ++
        "\n... (11 total)" :=
  ⟨(math_result_formatting.2.1 Unit (fun _ => "") 5 "average loan amount"
      (by decide) (by decide)).trans (by decide),
   (math_result_formatting.2.2.2.2.1 Unit (fun _ => "")
      (List.replicate 11 ("i", "v")) "list them" (by decide)).trans (by decide)⟩

/-- C10 counterexample: a golden-KB query answered by the fast path does
not leave the conversation history unchanged when a non-empty
`conversation_context` argument is supplied: the stored history
`[user: old question]` is replaced by the supplied context before the
golden check, even though no pipeline stage runs. -/
theorem golden_history_replaced_counterexample :
    (pydantic_ai_pipeline kbDemo fallback_intent retrieveDemo explainDemo
        [⟨"user", "old question"⟩] (some [⟨"assistant", "injected"⟩]) "cibil").2.1
      = [⟨"assistant", "injected"⟩] ∧
    (pydantic_ai_pipeline kbDemo fallback_intent retrieveDemo explainDemo
        [⟨"user", "old question"⟩] (some [⟨"assistant", "injected"⟩]) "cibil").2.2 = [] ∧
    ([⟨"assistant", "injected"⟩] : List Turn) ≠ [⟨"user", "old question"⟩] :=
  ⟨by decide, by decide, by decide⟩

/-- C10 (amended): when no `conversation_context` is supplied (or an empty,
falsy one), a golden-KB query leaves the stored history unchanged, and a
full-pipeline query appends exactly two turns — the user query and the
assistant summary, in that order — after the intact prior history; a
non-empty `conversation_context` instead replaces the stored history before
the golden check. -/
theorem conversation_history_frame :
    (∀ (kb : List KBEntry) analyze retrieve explain (hist : List Turn) (q : String),
      golden_hit kb q = true →
      (pydantic_ai_pipeline kb analyze retrieve explain hist none q).2.1 = hist ∧
      (pydantic_ai_pipeline kb analyze retrieve explain hist (some []) q).2.1 = hist) ∧
    (∀ (kb : List KBEntry) analyze retrieve explain (hist l : List Turn) (q : String),
      golden_hit kb q = true → l ≠ [] →
      (pydantic_ai_pipeline kb analyze retrieve explain hist (some l) q).2.1 = l) ∧
    (∀ (kb : List KBEntry) analyze retrieve explain (hist : List Turn) (q : String),
      golden_hit kb q = false →
      ∃ r, (pydantic_ai_pipeline kb analyze retrieve explain hist none q).1 = Except.ok r ∧
        (pydantic_ai_pipeline kb analyze retrieve explain hist none q).2.1 =
          hist ++ [⟨"user", q⟩, ⟨"assistant", r.summary⟩]) := by
  refine ⟨?_, ?_, ?_⟩
  · intro kb analyze retrieve explain hist q h
    constructor <;> simp [pydantic_ai_pipeline, h]
  · intro kb analyze retrieve explain hist l q h hl
    simp [pydantic_ai_pipeline, h, hl]
  · intro kb analyze retrieve explain hist q h
    simp only [pydantic_ai_pipeline, h, Bool.false_eq_true, if_false]
    exact ⟨_, rfl, rfl⟩

/-- C10 witness: the golden query `cibil` leaves a stored turn untouched,
and the unmatched query `weather` appends exactly the two new turns. -/
theorem conversation_history_frame_witness :
    (pydantic_ai_pipeline kbDemo fallback_intent retrieveDemo explainDemo
        [⟨"user", "old question"⟩] none "cibil").2.1 = [⟨"user", "old question"⟩] ∧
    ∃ r, (pydantic_ai_pipeline kbDemo fallback_intent retrieveDemo explainDemo
        [⟨"user", "old question"⟩] none "weather").1 = Except.ok r ∧
      (pydantic_ai_pipeline kbDemo fallback_intent retrieveDemo explainDemo
          [⟨"user", "old question"⟩] none "weather").2.1 =
        [⟨"user", "old question"⟩] ++ [⟨"user", "weather"⟩, ⟨"assistant", r.summary⟩] :=
  ⟨(conversation_history_frame.1 kbDemo fallback_intent retrieveDemo explainDemo
      [⟨"user", "old question"⟩] "cibil" (by decide)).1,
   conversation_history_frame.2.2 kbDemo fallback_intent retrieveDemo explainDemo
      [⟨"user", "old question"⟩] "weather" (by decide)⟩

end LoanInsight
